import Mathlib

/-!
Shallow embedding of `slack.go` (package `notify`): a Slack incoming-webhook
client.  Pure data (message construction, JSON shaping with `omitempty`) is
embedded as Lean functions; the delivery routine `sendHTTPRequest` is embedded
as a function over an `Effects` oracle recording the outcome of each external
call (`json.Marshal`, `retryablehttp.NewRequest`, `client.Do`,
`ioutil.ReadAll`).  `time.Duration` values are integers counting nanoseconds;
`time.Now().Unix()` is passed in as an integer parameter `now`.  Go errors are
modelled as strings, and a `(value, error)` Go return becomes a value together
with an `Option GoError` (with `none` playing the role of `nil`).
-/

namespace Notify

/-- Go `error` values, modelled by their message; `Option GoError` stands for a
possibly-nil Go error (`none` = `nil`). -/
abbrev GoError := String

/-- `time.Second` in nanoseconds (Go `time.Duration` is an int64 nanosecond
count). -/
def Second : Int := 1000000000

/-- `DefaultSlackTimeout = 5 * time.Second` (slack.go line 17). -/
def DefaultSlackTimeout : Int := 5 * Second

/-- `SlackClient` (slack.go lines 20-26).  The `client *retryablehttp.Client`
transport field carries no observable state in the embedding; its behaviour is
supplied per call by the `Effects` oracle. -/
structure SlackClient where
  WebHookURL : String
  UserName : String
  Channel : String
  TimeOut : Int
deriving Repr, DecidableEq

/-- `SimpleSlackRequest` (slack.go lines 29-32). -/
structure SimpleSlackRequest where
  Text : String := ""
  IconEmoji : String := ""
deriving Repr, DecidableEq

/-- `SlackJobNotification` (slack.go lines 35-40). -/
structure SlackJobNotification where
  Color : String := ""
  IconEmoji : String := ""
  Details : String := ""
  Text : String := ""
deriving Repr, DecidableEq

/-- `Attachment` (slack.go lines 52-71).  Field defaults are the Go zero
values, so a Lean structure literal that sets only some fields matches a Go
composite literal.  `TS` is a `json.Number`, i.e. a string holding a numeric
literal. -/
structure Attachment where
  Color : String := ""
  Fallback : String := ""
  CallbackID : String := ""
  ID : Int := 0
  AuthorID : String := ""
  AuthorName : String := ""
  AuthorSubname : String := ""
  AuthorLink : String := ""
  AuthorIcon : String := ""
  Title : String := ""
  TitleLink : String := ""
  Pretext : String := ""
  Text : String := ""
  ImageURL : String := ""
  ThumbURL : String := ""
  MarkdownIn : List String := []
  TS : String := ""
deriving Repr, DecidableEq

/-- `SlackMessage` (slack.go lines 43-49). -/
structure SlackMessage where
  Username : String := ""
  IconEmoji : String := ""
  Channel : String := ""
  Text : String := ""
  Attachments : List Attachment := []
deriving Repr, DecidableEq

/-- JSON values as produced by `encoding/json` for these types: strings,
`json.Number` literals, integers, arrays and objects (an object is its ordered
field list). -/
inductive Json where
  | str (s : String)
  | num (s : String)
  | int (n : Int)
  | arr (xs : List Json)
  | obj (fields : List (String × Json))
deriving Repr

/-- `encoding/json` marshalling of a `string` field tagged `omitempty`: the
field is dropped when the string is empty. -/
def strField (k v : String) : List (String × Json) :=
  if v = "" then [] else [(k, Json.str v)]

/-- `encoding/json` marshalling of an `int` field tagged `omitempty`: the field
is dropped when the value is zero. -/
def intField (k : String) (v : Int) : List (String × Json) :=
  if v = 0 then [] else [(k, Json.int v)]

/-- `encoding/json` marshalling of a `json.Number` field tagged `omitempty`:
the field is dropped when the underlying string is empty. -/
def numField (k v : String) : List (String × Json) :=
  if v = "" then [] else [(k, Json.num v)]

/-- `encoding/json` marshalling of a `[]string` field tagged `omitempty`: the
field is dropped when the slice is nil/empty. -/
def strListField (k : String) (vs : List String) : List (String × Json) :=
  if vs.isEmpty then [] else [(k, Json.arr (vs.map Json.str))]

/-- The ordered field list `json.Marshal` produces for an `Attachment`,
following the struct tags of slack.go lines 52-71 in declaration order. -/
def attachmentPairs (a : Attachment) : List (String × Json) :=
  strField "color" a.Color ++
  strField "fallback" a.Fallback ++
  strField "callback_id" a.CallbackID ++
  intField "id" a.ID ++
  strField "author_id" a.AuthorID ++
  strField "author_name" a.AuthorName ++
  strField "author_subname" a.AuthorSubname ++
  strField "author_link" a.AuthorLink ++
  strField "author_icon" a.AuthorIcon ++
  strField "title" a.Title ++
  strField "title_link" a.TitleLink ++
  strField "pretext" a.Pretext ++
  strField "text" a.Text ++
  strField "image_url" a.ImageURL ++
  strField "thumb_url" a.ThumbURL ++
  strListField "mrkdwn_in" a.MarkdownIn ++
  numField "ts" a.TS

/-- `json.Marshal` of one `Attachment`. -/
def Attachment.toJson (a : Attachment) : Json :=
  Json.obj (attachmentPairs a)

/-- `encoding/json` marshalling of the `[]Attachment` field tagged `omitempty`:
dropped when nil/empty, otherwise an array of the attachments in slice order. -/
def attachmentsField (k : String) (vs : List Attachment) : List (String × Json) :=
  if vs.isEmpty then [] else [(k, Json.arr (vs.map Attachment.toJson))]

/-- The ordered field list `json.Marshal` produces for a `SlackMessage`,
following the struct tags of slack.go lines 43-49 in declaration order. -/
def messagePairs (m : SlackMessage) : List (String × Json) :=
  strField "username" m.Username ++
  strField "icon_emoji" m.IconEmoji ++
  strField "channel" m.Channel ++
  strField "text" m.Text ++
  attachmentsField "attachments" m.Attachments

/-- `json.Marshal` of a `SlackMessage` (the `slackBody` of slack.go line 131). -/
def SlackMessage.toJson (m : SlackMessage) : Json :=
  Json.obj (messagePairs m)

/-- Modelled from the spec: the success-marker constant `ok` is compared
against the response body at slack.go line 157 but is not declared in the
provided source file; spec §9 records that the expected webhook acknowledgment
is the literal text "ok". -/
def ok : String := "ok"

/-- Outcomes of the external calls made by one run of `sendHTTPRequest`:
`json.Marshal` (slack.go line 131), `retryablehttp.NewRequest` (line 135),
`sc.client.Do` (line 144) and `ioutil.ReadAll` (line 149).  A `none` error
means the Go call returned a `nil` error; `readBody` is the bytes `ReadAll`
produced. -/
structure Effects where
  marshalErr : Option GoError := none
  newRequestErr : Option GoError := none
  doErr : Option GoError := none
  readBody : String := ""
  readErr : Option GoError := none
deriving Repr, DecidableEq

/-- The observable outcome of one `sendHTTPRequest` call: the client state when
the call returns (the receiver is a pointer, so the `TimeOut` write at line 141
persists), the returned error (`none` = `nil`), and whether `resp.Body.Close`
was invoked before returning. -/
structure HTTPOutcome where
  client : SlackClient
  result : Option GoError
  bodyClosed : Bool
deriving Repr, DecidableEq

/-- `sendHTTPRequest` (slack.go lines 130-161).  Notes kept faithful to the
source: the `TimeOut` default (lines 140-142) is applied only after `Marshal`
and `NewRequest` succeed; `defer resp.Body.Close()` (line 155) is written
*after* the `ReadAll` error return (lines 149-152), so on a read error the
function returns before the deferred close is registered; on a body/marker
mismatch line 158 returns `err`, which on that path is the `nil` error left by
the successful `ReadAll`. -/
def sendHTTPRequest (sc : SlackClient) (slackRequest : SlackMessage)
    (eff : Effects) : HTTPOutcome :=
  let _slackBody := slackRequest.toJson
  match eff.marshalErr with
  | some err => { client := sc, result := some err, bodyClosed := false }
  | none =>
    match eff.newRequestErr with
    | some err => { client := sc, result := some err, bodyClosed := false }
    | none =>
      let sc := if sc.TimeOut = 0 then { sc with TimeOut := DefaultSlackTimeout } else sc
      match eff.doErr with
      | some err => { client := sc, result := some err, bodyClosed := false }
      | none =>
        match eff.readErr with
        | some err => { client := sc, result := some err, bodyClosed := false }
        | none =>
          if eff.readBody ≠ ok then
            { client := sc, result := none, bodyClosed := true }
          else
            { client := sc, result := none, bodyClosed := true }

/-- The `slackRequest` literal built by `SendSlackNotification`
(slack.go lines 76-81). -/
def SlackClient.simpleMessage (sc : SlackClient) (sr : SimpleSlackRequest) :
    SlackMessage :=
  { Text := sr.Text
    Username := sc.UserName
    IconEmoji := sr.IconEmoji
    Channel := sc.Channel }

/-- `SendSlackNotification` (slack.go lines 75-83). -/
def SlackClient.SendSlackNotification (sc : SlackClient)
    (sr : SimpleSlackRequest) (eff : Effects) : HTTPOutcome :=
  sendHTTPRequest sc (sc.simpleMessage sr) eff

/-- `strconv.FormatInt(i, 10)`: the decimal string of an integer. -/
def formatInt (i : Int) : String := toString i

/-- The `attachment` literal built by `SendJobNotification` (slack.go lines
87-91); `now` is the value of `time.Now().Unix()` at the call. -/
def jobAttachment (job : SlackJobNotification) (now : Int) : Attachment :=
  { Color := job.Color
    Text := job.Details
    TS := formatInt now }

/-- The `slackRequest` literal built by `SendJobNotification`
(slack.go lines 92-98). -/
def SlackClient.jobMessage (sc : SlackClient) (job : SlackJobNotification)
    (now : Int) : SlackMessage :=
  { Text := job.Text
    Username := sc.UserName
    IconEmoji := job.IconEmoji
    Channel := sc.Channel
    Attachments := [jobAttachment job now] }

/-- `SendJobNotification` (slack.go lines 86-100). -/
def SlackClient.SendJobNotification (sc : SlackClient)
    (job : SlackJobNotification) (now : Int) (eff : Effects) : HTTPOutcome :=
  sendHTTPRequest sc (sc.jobMessage job now) eff

/-- The `sjn` literal built by `funcName` (slack.go lines 117-126): the icon is
`options[0]` when `len(options) > 0`, else the literal `":hammer_and_wrench"`;
the summary `Text` field is left at its zero value. -/
def funcNameSJN (color message : String) (options : List String) :
    SlackJobNotification :=
  { Color := color
    IconEmoji := options.headD ":hammer_and_wrench"
    Details := message
    Text := "" }

/-- `funcName` (slack.go lines 117-128). -/
def SlackClient.funcName (sc : SlackClient) (color message : String)
    (options : List String) (now : Int) (eff : Effects) : HTTPOutcome :=
  sc.SendJobNotification (funcNameSJN color message options) now eff

/-- `SendError` (slack.go lines 103-105). -/
def SlackClient.SendError (sc : SlackClient) (message : String)
    (options : List String) (now : Int) (eff : Effects) : HTTPOutcome :=
  sc.funcName "danger" message options now eff

/-- `SendInfo` (slack.go lines 108-110). -/
def SlackClient.SendInfo (sc : SlackClient) (message : String)
    (options : List String) (now : Int) (eff : Effects) : HTTPOutcome :=
  sc.funcName "good" message options now eff

/-- `SendWarning` (slack.go lines 113-115). -/
def SlackClient.SendWarning (sc : SlackClient) (message : String)
    (options : List String) (now : Int) (eff : Effects) : HTTPOutcome :=
  sc.funcName "warning" message options now eff

/-- A JSON value that `encoding/json` considers empty for `omitempty`
purposes: empty string, empty numeric literal, zero integer, empty array. -/
def isEmptyVal : Json → Bool
  | Json.str s => s == ""
  | Json.num s => s == ""
  | Json.int n => n == 0
  | Json.arr xs => xs.isEmpty
  | Json.obj _ => false

/-- First value bound to key `k` in an ordered JSON field list. -/
def lookupKey (ps : List (String × Json)) (k : String) : Option Json :=
  match ps with
  | [] => none
  | (k', v) :: rest => if k' = k then some v else lookupKey rest k

/-- The predicate of claim C10: a well-formed emoji shortcode of the
`:name:` form, i.e. at least two characters with a colon at both ends. -/
def isEmojiShortcode (s : String) : Bool :=
  decide (2 ≤ s.toList.length) && (s.toList.head? == some ':')
    && (s.toList.getLast? == some ':')

/-! Concrete fixtures used by witnesses and counterexample evaluations. -/

/-- A client with no explicit timeout, as a caller would construct it. -/
def sampleClient : SlackClient :=
  { WebHookURL := "https://hooks.example.com/T000/B000/XXXX"
    UserName := "notifier"
    Channel := "#ops"
    TimeOut := 0 }

/-- A client constructed with an explicit non-zero timeout. -/
def sampleClientTimed : SlackClient :=
  { WebHookURL := "https://hooks.example.com/T000/B000/XXXX"
    UserName := "notifier"
    Channel := "#ops"
    TimeOut := 7 * Second }

/-- An effects record in which every external call succeeds and the webhook
answers with a body different from the success marker. -/
def effMismatch : Effects :=
  { readBody := "invalid_payload" }

/-- An effects record in which the transport submission succeeds but reading
the response body fails. -/
def effReadFail : Effects :=
  { readBody := "", readErr := some "read: connection reset" }

/-- An effects record in which every external call succeeds and the webhook
acknowledges with the success marker. -/
def effOk : Effects :=
  { readBody := "ok" }

/-- A sample message payload. -/
def sampleMessage : SlackMessage :=
  { Text := "deploy finished", Username := "notifier", Channel := "#ops" }

/-- C2: on the delivery path where serialization, request construction,
transport submission and response-body read all succeed but the body differs
from the success marker, `sendHTTPRequest` returns the error left by the prior
successful call — which is `nil` there — so the caller receives `nil` and
cannot detect the semantic failure. -/
theorem sendHTTPRequest_masks_body_mismatch
    (sc : SlackClient) (msg : SlackMessage) (eff : Effects)
    (hm : eff.marshalErr = none) (hn : eff.newRequestErr = none)
    (hd : eff.doErr = none) (hr : eff.readErr = none)
    (hb : eff.readBody ≠ ok) :
    (sendHTTPRequest sc msg eff).result = none ∧
    (sendHTTPRequest sc msg eff).result = eff.readErr := by
  unfold sendHTTPRequest
  rw [hm, hn, hd, hr]
  simp [hb]

/-- Witness for C2 at a concrete client, message and transcript. -/
theorem sendHTTPRequest_masks_body_mismatch_witness :
    (sendHTTPRequest sampleClient sampleMessage effMismatch).result = none :=
  (sendHTTPRequest_masks_body_mismatch sampleClient sampleMessage effMismatch
    rfl rfl rfl rfl (by decide)).1

/-- C8: when the retry-capable transport's `Do` returns a non-nil error (after
its internal retries), every send method returns exactly that error value,
unchanged, to the caller. -/
theorem send_returns_do_error_unchanged
    (sc : SlackClient) (msg : SlackMessage) (sr : SimpleSlackRequest)
    (job : SlackJobNotification) (s : String) (opts : List String) (now : Int)
    (eff : Effects) (e : GoError)
    (hm : eff.marshalErr = none) (hn : eff.newRequestErr = none)
    (hd : eff.doErr = some e) :
    (sendHTTPRequest sc msg eff).result = some e ∧
    (sc.SendSlackNotification sr eff).result = some e ∧
    (sc.SendJobNotification job now eff).result = some e ∧
    (sc.SendError s opts now eff).result = some e ∧
    (sc.SendInfo s opts now eff).result = some e ∧
    (sc.SendWarning s opts now eff).result = some e := by
  have h : ∀ m : SlackMessage, (sendHTTPRequest sc m eff).result = some e := by
    intro m
    unfold sendHTTPRequest
    rw [hm, hn, hd]
  refine ⟨h msg, ?_, ?_, ?_, ?_, ?_⟩ <;>
    simp only [SlackClient.SendSlackNotification, SlackClient.SendJobNotification,
      SlackClient.SendError, SlackClient.SendInfo, SlackClient.SendWarning,
      SlackClient.funcName] <;>
    exact h _

/-- Witness for C8 at a concrete client, message and failing transport. -/
theorem send_returns_do_error_unchanged_witness :
    (sendHTTPRequest sampleClient sampleMessage
      { doErr := some "dial tcp: i/o timeout" }).result
      = some "dial tcp: i/o timeout" :=
  (send_returns_do_error_unchanged sampleClient sampleMessage
    { Text := "hi" } { Details := "d" } "m" [] 1700000000
    { doErr := some "dial tcp: i/o timeout" } "dial tcp: i/o timeout"
    rfl rfl rfl).1

/-- C3: a send call leaves every client field except `TimeOut` unchanged;
`TimeOut` either keeps its old value or — only when it was zero — becomes the
5-second default, a client with a non-zero timeout keeps it across sends, and
since the default itself is non-zero the default is assigned at most once
across the client's lifetime.  All public send methods delegate to
`sendHTTPRequest` with the receiver unchanged, so the statement quantifies
over the message. -/
theorem sendHTTPRequest_frame
    (sc : SlackClient) (msg : SlackMessage) (eff : Effects) :
    (sendHTTPRequest sc msg eff).client.WebHookURL = sc.WebHookURL ∧
    (sendHTTPRequest sc msg eff).client.UserName = sc.UserName ∧
    (sendHTTPRequest sc msg eff).client.Channel = sc.Channel ∧
    ((sendHTTPRequest sc msg eff).client.TimeOut = sc.TimeOut ∨
      (sc.TimeOut = 0 ∧
        (sendHTTPRequest sc msg eff).client.TimeOut = DefaultSlackTimeout)) ∧
    (sc.TimeOut ≠ 0 →
      (sendHTTPRequest sc msg eff).client.TimeOut = sc.TimeOut) ∧
    DefaultSlackTimeout ≠ 0 := by
  obtain ⟨me, ne, de, rb, re⟩ := eff
  unfold sendHTTPRequest
  cases me <;> cases ne <;> cases de <;> cases re <;>
    simp only [] <;>
    by_cases h0 : sc.TimeOut = 0 <;>
    simp [h0, DefaultSlackTimeout, Second]

/-- Witness for C3: a client constructed with an explicit 7-second timeout
keeps it across a send. -/
theorem sendHTTPRequest_frame_witness :
    sampleClientTimed.TimeOut ≠ 0 ∧
    (sendHTTPRequest sampleClientTimed sampleMessage effOk).client.TimeOut
      = sampleClientTimed.TimeOut :=
  ⟨by decide,
    (sendHTTPRequest_frame sampleClientTimed sampleMessage effOk).2.2.2.2.1
      (by decide)⟩

/-- C4 evaluation: on the path where the transport submission succeeds but
reading the response body fails, `sendHTTPRequest` returns before the
`defer resp.Body.Close()` of slack.go line 155 is registered, so the body is
never closed there — the claim that the body is released on every such path,
including the read-failure path, fails on the code. -/
theorem sendHTTPRequest_read_error_leaves_body_open :
    (sendHTTPRequest sampleClient sampleMessage effReadFail).result
        = some "read: connection reset" ∧
    (sendHTTPRequest sampleClient sampleMessage effReadFail).bodyClosed
        = false := by
  constructor <;> rfl

/-- C1 evaluation: with a transcript in which every external call succeeds but
the webhook's response body differs from the success marker, every public send
method returns `nil` instead of the non-nil descriptive error the claim
requires (the masking bug of slack.go lines 157-159). -/
theorem send_methods_nil_on_body_mismatch :
    (sampleClient.SendSlackNotification { Text := "hi", IconEmoji := ":x:" }
        effMismatch).result = none ∧
    (sampleClient.SendJobNotification
        { Color := "good", IconEmoji := ":x:", Details := "d", Text := "t" }
        1700000000 effMismatch).result = none ∧
    (sampleClient.SendError "disk full" [] 1700000000 effMismatch).result
        = none ∧
    (sampleClient.SendInfo "all clear" [] 1700000000 effMismatch).result
        = none ∧
    (sampleClient.SendWarning "low memory" [":bell:"] 1700000000
        effMismatch).result = none := by
  refine ⟨?_, ?_, ?_, ?_, ?_⟩ <;> rfl

/-- C5: `SendJobNotification` delivers a message carrying exactly one
attachment whose color and text are the given color and details, whose
timestamp is the decimal string of the Unix time `now` at the call — bounded
by the times immediately before and after it — and whose top-level text is the
given summary. -/
theorem SendJobNotification_builds_job_message
    (sc : SlackClient) (job : SlackJobNotification)
    (now tBefore tAfter : Int) (eff : Effects)
    (h1 : tBefore ≤ now) (h2 : now ≤ tAfter) :
    sc.SendJobNotification job now eff
        = sendHTTPRequest sc (sc.jobMessage job now) eff ∧
    (sc.jobMessage job now).Attachments = [jobAttachment job now] ∧
    (jobAttachment job now).Color = job.Color ∧
    (jobAttachment job now).Text = job.Details ∧
    (jobAttachment job now).TS = formatInt now ∧
    (sc.jobMessage job now).Text = job.Text ∧
    tBefore ≤ now ∧ now ≤ tAfter :=
  ⟨rfl, rfl, rfl, rfl, rfl, rfl, h1, h2⟩

/-- Witness for C5 at a concrete client, job and clock reading. -/
theorem SendJobNotification_builds_job_message_witness :
    (sampleClient.jobMessage
        { Color := "good", IconEmoji := ":x:", Details := "d", Text := "t" }
        1700000000).Attachments
      = [jobAttachment
          { Color := "good", IconEmoji := ":x:", Details := "d", Text := "t" }
          1700000000] :=
  (SendJobNotification_builds_job_message sampleClient
    { Color := "good", IconEmoji := ":x:", Details := "d", Text := "t" }
    1700000000 1699999999 1700000001 effOk (by decide) (by decide)).2.1

/-- C6: `SendError`, `SendInfo` and `SendWarning` are wrappers over
`SendJobNotification` fixing the color to "danger", "good" and "warning"
respectively, with details text equal to the given message, empty summary
text, and the icon defaulting to the tool/wrench glyph unless the caller
supplies a first variadic option; in particular
`SendWarning "low memory" [":bell:"]` carries color "warning" and icon
":bell:". -/
theorem severity_wrappers_spec
    (sc : SlackClient) (message o : String) (rest opts : List String)
    (now : Int) (eff : Effects) :
    sc.SendError message opts now eff
        = sc.SendJobNotification (funcNameSJN "danger" message opts) now eff ∧
    sc.SendInfo message opts now eff
        = sc.SendJobNotification (funcNameSJN "good" message opts) now eff ∧
    sc.SendWarning message opts now eff
        = sc.SendJobNotification (funcNameSJN "warning" message opts) now eff ∧
    (funcNameSJN "danger" message opts).Color = "danger" ∧
    (funcNameSJN "good" message opts).Color = "good" ∧
    (funcNameSJN "warning" message opts).Color = "warning" ∧
    (funcNameSJN "danger" message opts).Details = message ∧
    (funcNameSJN "good" message opts).Details = message ∧
    (funcNameSJN "warning" message opts).Details = message ∧
    (funcNameSJN "danger" message opts).Text = "" ∧
    (funcNameSJN "good" message opts).Text = "" ∧
    (funcNameSJN "warning" message opts).Text = "" ∧
    (funcNameSJN "danger" message []).IconEmoji = ":hammer_and_wrench" ∧
    (funcNameSJN "good" message []).IconEmoji = ":hammer_and_wrench" ∧
    (funcNameSJN "warning" message []).IconEmoji = ":hammer_and_wrench" ∧
    (funcNameSJN "warning" message (o :: rest)).IconEmoji = o ∧
    (funcNameSJN "warning" "low memory" [":bell:"]).Color = "warning" ∧
    (funcNameSJN "warning" "low memory" [":bell:"]).IconEmoji = ":bell:" :=
  ⟨rfl, rfl, rfl, rfl, rfl, rfl, rfl, rfl, rfl, rfl, rfl, rfl, rfl, rfl, rfl,
    rfl, rfl, rfl⟩

/-- C9: `SendSlackNotification` delivers a message with no attachments whose
username and channel come from the client's configuration and whose text and
icon come from the request, and its return value is exactly the delivery
routine's result, so it is `nil` exactly when delivery succeeds. -/
theorem SendSlackNotification_builds_simple_message
    (sc : SlackClient) (sr : SimpleSlackRequest) (eff : Effects) :
    sc.SendSlackNotification sr eff
        = sendHTTPRequest sc (sc.simpleMessage sr) eff ∧
    (sc.simpleMessage sr).Attachments = [] ∧
    (sc.simpleMessage sr).Username = sc.UserName ∧
    (sc.simpleMessage sr).Channel = sc.Channel ∧
    (sc.simpleMessage sr).Text = sr.Text ∧
    (sc.simpleMessage sr).IconEmoji = sr.IconEmoji ∧
    ((sc.SendSlackNotification sr eff).result = none ↔
      (sendHTTPRequest sc (sc.simpleMessage sr) eff).result = none) :=
  ⟨rfl, rfl, rfl, rfl, rfl, rfl, Iff.rfl⟩

/-- C10: the default icon the severity wrappers use when no override is
supplied is exactly the literal ":hammer_and_wrench" — it opens with a colon
but does not close with one, so it is not a well-formed shortcode of the
`:name:` form, unlike the override examples such as ":bell:". -/
theorem default_icon_is_unterminated_shortcode (color message : String) :
    (funcNameSJN color message []).IconEmoji = ":hammer_and_wrench" ∧
    (funcNameSJN color message []).IconEmoji.toList.head? = some ':' ∧
    (funcNameSJN color message []).IconEmoji.toList.getLast? = some 'h' ∧
    isEmojiShortcode (funcNameSJN color message []).IconEmoji = false ∧
    isEmojiShortcode ":bell:" = true := by
  refine ⟨rfl, ?_, ?_, ?_, ?_⟩
  · show (":hammer_and_wrench" : String).toList.head? = some ':'
    decide
  · show (":hammer_and_wrench" : String).toList.getLast? = some 'h'
    decide
  · show isEmojiShortcode ":hammer_and_wrench" = false
    decide
  · decide

/-- A string field tagged `omitempty` never contributes an empty value. -/
theorem strField_all_nonempty (k v : String) :
    (strField k v).all (fun p => !isEmptyVal p.2) = true := by
  unfold strField
  split
  · rfl
  · rename_i h
    simp [isEmptyVal, h]

/-- An int field tagged `omitempty` never contributes an empty value. -/
theorem intField_all_nonempty (k : String) (v : Int) :
    (intField k v).all (fun p => !isEmptyVal p.2) = true := by
  unfold intField
  split
  · rfl
  · rename_i h
    simp [isEmptyVal, h]

/-- A `json.Number` field tagged `omitempty` never contributes an empty
value. -/
theorem numField_all_nonempty (k v : String) :
    (numField k v).all (fun p => !isEmptyVal p.2) = true := by
  unfold numField
  split
  · rfl
  · rename_i h
    simp [isEmptyVal, h]

/-- A `[]string` field tagged `omitempty` never contributes an empty value. -/
theorem strListField_all_nonempty (k : String) (vs : List String) :
    (strListField k vs).all (fun p => !isEmptyVal p.2) = true := by
  unfold strListField
  split
  · rfl
  · rename_i h
    cases vs with
    | nil => simp at h
    | cons b l => simp [isEmptyVal]

/-- The `[]Attachment` field tagged `omitempty` never contributes an empty
value. -/
theorem attachmentsField_all_nonempty (k : String) (vs : List Attachment) :
    (attachmentsField k vs).all (fun p => !isEmptyVal p.2) = true := by
  unfold attachmentsField
  split
  · rfl
  · rename_i h
    cases vs with
    | nil => simp at h
    | cons b l => simp [isEmptyVal]

/-- Every field `json.Marshal` emits for an `Attachment` carries a non-empty
value. -/
theorem attachmentPairs_all_nonempty (a : Attachment) :
    (attachmentPairs a).all (fun p => !isEmptyVal p.2) = true := by
  simp [attachmentPairs, List.all_append, strField_all_nonempty,
    intField_all_nonempty, numField_all_nonempty, strListField_all_nonempty]

/-- Every field `json.Marshal` emits for a `SlackMessage` carries a non-empty
value. -/
theorem messagePairs_all_nonempty (m : SlackMessage) :
    (messagePairs m).all (fun p => !isEmptyVal p.2) = true := by
  simp [messagePairs, List.all_append, strField_all_nonempty,
    attachmentsField_all_nonempty]

/-- Looking up a key skips a string field bound to a different key. -/
theorem lookupKey_strField_skip (k' v k : String) (h : k' ≠ k)
    (rest : List (String × Json)) :
    lookupKey (strField k' v ++ rest) k = lookupKey rest k := by
  unfold strField
  split
  · rfl
  · simp [lookupKey, h]

/-- The "attachments" entry of a serialized message: absent when the slice is
empty, otherwise the attachments serialized in slice order. -/
theorem lookupKey_attachments (m : SlackMessage) :
    lookupKey (messagePairs m) "attachments"
      = if m.Attachments.isEmpty then none
        else some (Json.arr (m.Attachments.map Attachment.toJson)) := by
  unfold messagePairs
  simp only [List.append_assoc]
  rw [lookupKey_strField_skip "username" m.Username "attachments" (by decide),
    lookupKey_strField_skip "icon_emoji" m.IconEmoji "attachments" (by decide),
    lookupKey_strField_skip "channel" m.Channel "attachments" (by decide),
    lookupKey_strField_skip "text" m.Text "attachments" (by decide)]
  unfold attachmentsField
  split <;> simp_all [lookupKey]

/-- C7: the serialized wire form of a message omits every field whose value is
empty/unset — no entry carries an empty placeholder, and the attachments entry
is absent exactly when the attachment slice is empty — and the attachments
array lists the serialized attachments in insertion order. -/
theorem serialization_omits_empty_and_preserves_order
    (m : SlackMessage) (a : Attachment) :
    (∀ p ∈ messagePairs m, isEmptyVal p.2 = false) ∧
    (∀ p ∈ attachmentPairs a, isEmptyVal p.2 = false) ∧
    (m.Attachments = [] → lookupKey (messagePairs m) "attachments" = none) ∧
    (m.Attachments ≠ [] →
      lookupKey (messagePairs m) "attachments"
        = some (Json.arr (m.Attachments.map Attachment.toJson))) ∧
    (∀ i (h : i < m.Attachments.length),
      (m.Attachments.map Attachment.toJson).get ⟨i, by simpa using h⟩
        = Attachment.toJson (m.Attachments.get ⟨i, h⟩)) := by
  refine ⟨?_, ?_, ?_, ?_, ?_⟩
  · intro p hp
    have h := messagePairs_all_nonempty m
    rw [List.all_eq_true] at h
    simpa using h p hp
  · intro p hp
    have h := attachmentPairs_all_nonempty a
    rw [List.all_eq_true] at h
    simpa using h p hp
  · intro h
    simp [lookupKey_attachments, h]
  · intro h
    cases hA : m.Attachments with
    | nil => exact absurd hA h
    | cons b l =>
      rw [lookupKey_attachments, hA]
      simp
  · intro i h
    simp

/-- A message with one populated attachment, for the C7 witness. -/
def attachedMessage : SlackMessage :=
  { Text := "job done"
    Username := "notifier"
    Attachments := [{ Color := "danger", Text := "disk full", TS := "1700000000" }] }

/-- Witness for C7: on a concrete message with one attachment, the serialized
form carries the attachments array in insertion order. -/
theorem serialization_omits_empty_and_preserves_order_witness :
    lookupKey (messagePairs attachedMessage) "attachments"
      = some (Json.arr (attachedMessage.Attachments.map Attachment.toJson)) :=
  (serialization_omits_empty_and_preserves_order attachedMessage
    { Color := "danger", Text := "disk full", TS := "1700000000" }).2.2.2.1
    (by decide)

end Notify
